import Mathlib

/-!
Verification of the vexel vector-math library (src/src/vectors/vector2.rs,
vector3.rs, vector4.rs).

Embedding conventions:
- `Vector2 T`, `Vector3 T`, `Vector4 T` mirror the Rust generic structs.
- Rust `f64` is abstracted as `ℝ`; every metric operation (length, dot,
  cross, normalize, project_onto, reject_from, lerp, angle_between) computes
  in `f64` in the source and is embedded over `ℝ`, specialised to `T = ℝ`
  (the `Into<f64>`/`From<f64>` conversions are the identity there).
- Rust slice indexing `components[i]` panics when out of bounds; `swizzle`
  therefore returns an `Option`, with `none` standing for the panic.
- `angle_between` is the one operation whose specified behaviour mentions
  IEEE non-finite results (NaN); its division and arc-cosine are embedded
  through a small value type `FReal` that tracks finite values, infinities
  and NaN, following IEEE-754 rules for `x / 0` and for `acos` outside
  `[-1, 1]`.
-/

namespace Vexel

/-- A 2D vector with `x` and `y` components (vector2.rs). -/
structure Vector2 (T : Type) where
  x : T
  y : T
deriving DecidableEq

/-- A 3D vector with `x`, `y` and `z` components (vector3.rs). -/
structure Vector3 (T : Type) where
  x : T
  y : T
  z : T
deriving DecidableEq

/-- A 4D vector with `x`, `y`, `z` and `w` components (vector4.rs). -/
structure Vector4 (T : Type) where
  x : T
  y : T
  z : T
  w : T
deriving DecidableEq

/-- `Vector2::new`. -/
def Vector2.new {T : Type} (x y : T) : Vector2 T := ⟨x, y⟩

/-- `Vector3::new`. -/
def Vector3.new {T : Type} (x y z : T) : Vector3 T := ⟨x, y, z⟩

/-- `Vector4::new`. -/
def Vector4.new {T : Type} (x y z w : T) : Vector4 T := ⟨x, y, z, w⟩

/-- `impl Add for Vector2`: componentwise addition. -/
instance {T : Type} [Add T] : Add (Vector2 T) where
  add a b := ⟨a.x + b.x, a.y + b.y⟩

/-- `impl Add for Vector3`: componentwise addition. -/
instance {T : Type} [Add T] : Add (Vector3 T) where
  add a b := ⟨a.x + b.x, a.y + b.y, a.z + b.z⟩

/-- `impl Add for Vector4`: componentwise addition. -/
instance {T : Type} [Add T] : Add (Vector4 T) where
  add a b := ⟨a.x + b.x, a.y + b.y, a.z + b.z, a.w + b.w⟩

/-- `Vector2::swizzle(x, y)`: gathers `components = [self.x, self.y]` at the
given indices; Rust indexing panics out of bounds, embedded as `none`. -/
def Vector2.swizzle {T : Type} (v : Vector2 T) (x y : Nat) : Option (Vector2 T) :=
  let components := [v.x, v.y]
  match components.get? x, components.get? y with
  | some cx, some cy => some ⟨cx, cy⟩
  | _, _ => none

/-- `Vector3::swizzle(x, y, z)`: gathers `components = [self.x, self.y, self.z]`
at the given indices; Rust indexing panics out of bounds, embedded as `none`. -/
def Vector3.swizzle {T : Type} (v : Vector3 T) (x y z : Nat) : Option (Vector3 T) :=
  let components := [v.x, v.y, v.z]
  match components.get? x, components.get? y, components.get? z with
  | some cx, some cy, some cz => some ⟨cx, cy, cz⟩
  | _, _, _ => none

/-- `Vector4::swizzle(x, y, z, w)`: gathers
`components = [self.x, self.y, self.z, self.w]` at the given indices; Rust
indexing panics out of bounds, embedded as `none`. -/
def Vector4.swizzle {T : Type} (v : Vector4 T) (x y z w : Nat) : Option (Vector4 T) :=
  let components := [v.x, v.y, v.z, v.w]
  match components.get? x, components.get? y, components.get? z, components.get? w with
  | some cx, some cy, some cz, some cw => some ⟨cx, cy, cz, cw⟩
  | _, _, _, _ => none

/-- An `f64` computation result: a finite real, an infinity, or NaN.  Used
where the specified behaviour depends on IEEE non-finite values. -/
inductive FReal
  | num (v : ℝ)
  | inf
  | neginf
  | nan

noncomputable section

open Classical

/-- IEEE `f64` division `a / b`: finite quotient when `b ≠ 0`; `±∞` for
`a / 0` with `a ≠ 0`; NaN for `0 / 0`. -/
def fdiv (a b : ℝ) : FReal :=
  if b = 0 then
    if 0 < a then FReal.inf
    else if a < 0 then FReal.neginf
    else FReal.nan
  else FReal.num (a / b)

/-- IEEE `f64` `acos`: defined on finite inputs in `[-1, 1]`, NaN otherwise
(including on infinite or NaN inputs). -/
def facos : FReal → FReal
  | FReal.num v => if v < -1 ∨ 1 < v then FReal.nan else FReal.num (Real.arccos v)
  | _ => FReal.nan

/-- `Vector2::length`: `sqrt(x² + y²)` in `f64`. -/
def Vector2.length (v : Vector2 ℝ) : ℝ :=
  Real.sqrt (v.x ^ 2 + v.y ^ 2)

/-- `Vector2::dot`. -/
def Vector2.dot (v other : Vector2 ℝ) : ℝ :=
  v.x * other.x + v.y * other.y

/-- `Vector2::cross`: the 2D scalar determinant `x1*y2 - y1*x2`. -/
def Vector2.cross (v other : Vector2 ℝ) : ℝ :=
  v.x * other.y - v.y * other.x

/-- `Vector2::normalize`: returns `self` unchanged when `length == 0.0`,
otherwise divides each component by the length. -/
def Vector2.normalize (v : Vector2 ℝ) : Vector2 ℝ :=
  let len := v.length
  if len = 0 then v
  else ⟨v.x / len, v.y / len⟩

/-- `Vector2::project_onto`: `scalar = dot(self,other)/dot(other,other)`,
result `scalar * other`. -/
def Vector2.project_onto (v other : Vector2 ℝ) : Vector2 ℝ :=
  let scalar := v.dot other / other.dot other
  ⟨scalar * other.x, scalar * other.y⟩

/-- `Vector2::reject_from`: `self - project_onto(other)` componentwise. -/
def Vector2.reject_from (v other : Vector2 ℝ) : Vector2 ℝ :=
  let projection := v.project_onto other
  ⟨v.x - projection.x, v.y - projection.y⟩

/-- `Vector2::lerp`: `self + (other - self) * t` componentwise, `t` unclamped. -/
def Vector2.lerp (v other : Vector2 ℝ) (t : ℝ) : Vector2 ℝ :=
  ⟨v.x + (other.x - v.x) * t, v.y + (other.y - v.y) * t⟩

/-- `Vector2::angle_between`: `acos(dot / (length(self) * length(other)))`,
with IEEE division and arc-cosine. -/
def Vector2.angle_between (v other : Vector2 ℝ) : FReal :=
  facos (fdiv (v.dot other) (v.length * other.length))

/-- `Vector3::length`: `sqrt(x² + y² + z²)` in `f64`. -/
def Vector3.length (v : Vector3 ℝ) : ℝ :=
  Real.sqrt (v.x ^ 2 + v.y ^ 2 + v.z ^ 2)

/-- `Vector3::dot`. -/
def Vector3.dot (v other : Vector3 ℝ) : ℝ :=
  v.x * other.x + v.y * other.y + v.z * other.z

/-- `Vector3::cross`: the true 3D cross product. -/
def Vector3.cross (v other : Vector3 ℝ) : Vector3 ℝ :=
  ⟨v.y * other.z - v.z * other.y,
   v.z * other.x - v.x * other.z,
   v.x * other.y - v.y * other.x⟩

/-- `Vector3::normalize`: returns `self` unchanged when `length == 0.0`,
otherwise divides each component by the length. -/
def Vector3.normalize (v : Vector3 ℝ) : Vector3 ℝ :=
  let len := v.length
  if len = 0 then v
  else ⟨v.x / len, v.y / len, v.z / len⟩

/-- `Vector3::project_onto`. -/
def Vector3.project_onto (v other : Vector3 ℝ) : Vector3 ℝ :=
  let scalar := (v.x * other.x + v.y * other.y + v.z * other.z) /
    (other.x * other.x + other.y * other.y + other.z * other.z)
  ⟨scalar * other.x, scalar * other.y, scalar * other.z⟩

/-- `Vector3::reject_from`: `self - project_onto(other)` componentwise. -/
def Vector3.reject_from (v other : Vector3 ℝ) : Vector3 ℝ :=
  let projection := v.project_onto other
  ⟨v.x - projection.x, v.y - projection.y, v.z - projection.z⟩

/-- `Vector3::lerp`: `self + (other - self) * t` componentwise, `t` unclamped. -/
def Vector3.lerp (v other : Vector3 ℝ) (t : ℝ) : Vector3 ℝ :=
  ⟨v.x + (other.x - v.x) * t,
   v.y + (other.y - v.y) * t,
   v.z + (other.z - v.z) * t⟩

/-- `Vector3::angle_between`: `acos(dot / (length(self) * length(other)))`,
with IEEE division and arc-cosine. -/
def Vector3.angle_between (v other : Vector3 ℝ) : FReal :=
  facos (fdiv (v.dot other) (v.length * other.length))

/-- `Vector4::length`: `sqrt(x² + y² + z² + w²)` in `f64`. -/
def Vector4.length (v : Vector4 ℝ) : ℝ :=
  Real.sqrt (v.x ^ 2 + v.y ^ 2 + v.z ^ 2 + v.w ^ 2)

/-- `Vector4::dot`. -/
def Vector4.dot (v other : Vector4 ℝ) : ℝ :=
  v.x * other.x + v.y * other.y + v.z * other.z + v.w * other.w

/-- `Vector4::cross`: 3D cross product of the x,y,z parts, `w` fixed to `0.0`;
returns a `Vector4<f64>` in the source (components stay `f64`). -/
def Vector4.cross (v other : Vector4 ℝ) : Vector4 ℝ :=
  Vector4.new
    (v.y * other.z - v.z * other.y)
    (v.z * other.x - v.x * other.z)
    (v.x * other.y - v.y * other.x)
    0

/-- `Vector4::normalize`: returns `self` unchanged when `length == 0.0`,
otherwise divides each component by the length. -/
def Vector4.normalize (v : Vector4 ℝ) : Vector4 ℝ :=
  let len := v.length
  if len = 0 then v
  else ⟨v.x / len, v.y / len, v.z / len, v.w / len⟩

/-- `Vector4::project_onto`. -/
def Vector4.project_onto (v other : Vector4 ℝ) : Vector4 ℝ :=
  let scalar := (v.x * other.x + v.y * other.y + v.z * other.z + v.w * other.w) /
    (other.x * other.x + other.y * other.y + other.z * other.z + other.w * other.w)
  ⟨scalar * other.x, scalar * other.y, scalar * other.z, scalar * other.w⟩

/-- `Vector4::reject_from`: `self - project_onto(other)` componentwise. -/
def Vector4.reject_from (v other : Vector4 ℝ) : Vector4 ℝ :=
  let projection := v.project_onto other
  ⟨v.x - projection.x, v.y - projection.y, v.z - projection.z, v.w - projection.w⟩

/-- `Vector4::lerp`: `self + (other - self) * t` componentwise, `t` unclamped. -/
def Vector4.lerp (v other : Vector4 ℝ) (t : ℝ) : Vector4 ℝ :=
  ⟨v.x + (other.x - v.x) * t,
   v.y + (other.y - v.y) * t,
   v.z + (other.z - v.z) * t,
   v.w + (other.w - v.w) * t⟩

/-- `Vector4::angle_between`: `acos(dot / (length(self) * length(other)))`,
with IEEE division and arc-cosine. -/
def Vector4.angle_between (v other : Vector4 ℝ) : FReal :=
  facos (fdiv (v.dot other) (v.length * other.length))

end

/-! ### Componentwise simp lemmas for the `Add` instances -/

@[simp] lemma Vector2.add2_x {T : Type} [Add T] (a b : Vector2 T) : (a + b).x = a.x + b.x := rfl

@[simp] lemma Vector2.add2_y {T : Type} [Add T] (a b : Vector2 T) : (a + b).y = a.y + b.y := rfl

@[simp] lemma Vector3.add3_x {T : Type} [Add T] (a b : Vector3 T) : (a + b).x = a.x + b.x := rfl

@[simp] lemma Vector3.add3_y {T : Type} [Add T] (a b : Vector3 T) : (a + b).y = a.y + b.y := rfl

@[simp] lemma Vector3.add3_z {T : Type} [Add T] (a b : Vector3 T) : (a + b).z = a.z + b.z := rfl

@[simp] lemma Vector4.add4_x {T : Type} [Add T] (a b : Vector4 T) : (a + b).x = a.x + b.x := rfl

@[simp] lemma Vector4.add4_y {T : Type} [Add T] (a b : Vector4 T) : (a + b).y = a.y + b.y := rfl

@[simp] lemma Vector4.add4_z {T : Type} [Add T] (a b : Vector4 T) : (a + b).z = a.z + b.z := rfl

@[simp] lemma Vector4.add4_w {T : Type} [Add T] (a b : Vector4 T) : (a + b).w = a.w + b.w := rfl

/-! ### Basic length lemmas -/

lemma Vector2.length2_nonneg (v : Vector2 ℝ) : 0 ≤ v.length := Real.sqrt_nonneg _

lemma Vector3.length3_nonneg (v : Vector3 ℝ) : 0 ≤ v.length := Real.sqrt_nonneg _

lemma Vector4.length4_nonneg (v : Vector4 ℝ) : 0 ≤ v.length := Real.sqrt_nonneg _

lemma Vector2.sq_length2 (v : Vector2 ℝ) : v.length ^ 2 = v.x ^ 2 + v.y ^ 2 :=
  Real.sq_sqrt (by positivity)

lemma Vector3.sq_length3 (v : Vector3 ℝ) : v.length ^ 2 = v.x ^ 2 + v.y ^ 2 + v.z ^ 2 :=
  Real.sq_sqrt (by positivity)

lemma Vector4.sq_length4 (v : Vector4 ℝ) :
    v.length ^ 2 = v.x ^ 2 + v.y ^ 2 + v.z ^ 2 + v.w ^ 2 :=
  Real.sq_sqrt (by positivity)

lemma Vector2.length2_eq_zero_iff (v : Vector2 ℝ) :
    v.length = 0 ↔ v.x = 0 ∧ v.y = 0 := by
  constructor
  · intro h
    have h0 : v.x ^ 2 + v.y ^ 2 = 0 := by
      have := (Real.sqrt_eq_zero (by positivity)).mp h
      exact this
    have hx : v.x ^ 2 = 0 := by nlinarith [sq_nonneg v.x, sq_nonneg v.y]
    have hy : v.y ^ 2 = 0 := by nlinarith [sq_nonneg v.x, sq_nonneg v.y]
    exact ⟨pow_eq_zero_iff two_ne_zero |>.mp hx, pow_eq_zero_iff two_ne_zero |>.mp hy⟩
  · rintro ⟨hx, hy⟩
    simp [Vector2.length, hx, hy]

lemma Vector3.length3_eq_zero_iff (v : Vector3 ℝ) :
    v.length = 0 ↔ v.x = 0 ∧ v.y = 0 ∧ v.z = 0 := by
  constructor
  · intro h
    have h0 : v.x ^ 2 + v.y ^ 2 + v.z ^ 2 = 0 := by
      have := (Real.sqrt_eq_zero (by positivity)).mp h
      exact this
    have hx : v.x ^ 2 = 0 := by nlinarith [sq_nonneg v.x, sq_nonneg v.y, sq_nonneg v.z]
    have hy : v.y ^ 2 = 0 := by nlinarith [sq_nonneg v.x, sq_nonneg v.y, sq_nonneg v.z]
    have hz : v.z ^ 2 = 0 := by nlinarith [sq_nonneg v.x, sq_nonneg v.y, sq_nonneg v.z]
    exact ⟨pow_eq_zero_iff two_ne_zero |>.mp hx, pow_eq_zero_iff two_ne_zero |>.mp hy,
      pow_eq_zero_iff two_ne_zero |>.mp hz⟩
  · rintro ⟨hx, hy, hz⟩
    simp [Vector3.length, hx, hy, hz]

lemma Vector4.length4_eq_zero_iff (v : Vector4 ℝ) :
    v.length = 0 ↔ v.x = 0 ∧ v.y = 0 ∧ v.z = 0 ∧ v.w = 0 := by
  constructor
  · intro h
    have h0 : v.x ^ 2 + v.y ^ 2 + v.z ^ 2 + v.w ^ 2 = 0 := by
      have := (Real.sqrt_eq_zero (by positivity)).mp h
      exact this
    have hx : v.x ^ 2 = 0 := by
      nlinarith [sq_nonneg v.x, sq_nonneg v.y, sq_nonneg v.z, sq_nonneg v.w]
    have hy : v.y ^ 2 = 0 := by
      nlinarith [sq_nonneg v.x, sq_nonneg v.y, sq_nonneg v.z, sq_nonneg v.w]
    have hz : v.z ^ 2 = 0 := by
      nlinarith [sq_nonneg v.x, sq_nonneg v.y, sq_nonneg v.z, sq_nonneg v.w]
    have hw : v.w ^ 2 = 0 := by
      nlinarith [sq_nonneg v.x, sq_nonneg v.y, sq_nonneg v.z, sq_nonneg v.w]
    exact ⟨pow_eq_zero_iff two_ne_zero |>.mp hx, pow_eq_zero_iff two_ne_zero |>.mp hy,
      pow_eq_zero_iff two_ne_zero |>.mp hz, pow_eq_zero_iff two_ne_zero |>.mp hw⟩
  · rintro ⟨hx, hy, hz, hw⟩
    simp [Vector4.length, hx, hy, hz, hw]

/-! ### Cauchy-Schwarz, normalisation and angle lemmas -/

lemma fdiv_zero_zero : fdiv 0 0 = FReal.nan := by
  simp [fdiv]

lemma facos_nan : facos FReal.nan = FReal.nan := rfl

lemma Vector2.dot2_sq_le (a b : Vector2 ℝ) :
    (a.dot b) ^ 2 ≤ (a.x ^ 2 + a.y ^ 2) * (b.x ^ 2 + b.y ^ 2) := by
  simp only [Vector2.dot]
  nlinarith [sq_nonneg (a.x * b.y - a.y * b.x)]

lemma Vector3.dot3_sq_le (a b : Vector3 ℝ) :
    (a.dot b) ^ 2 ≤ (a.x ^ 2 + a.y ^ 2 + a.z ^ 2) * (b.x ^ 2 + b.y ^ 2 + b.z ^ 2) := by
  simp only [Vector3.dot]
  nlinarith [sq_nonneg (a.x * b.y - a.y * b.x), sq_nonneg (a.y * b.z - a.z * b.y),
    sq_nonneg (a.x * b.z - a.z * b.x)]

lemma Vector4.dot4_sq_le (a b : Vector4 ℝ) :
    (a.dot b) ^ 2 ≤
      (a.x ^ 2 + a.y ^ 2 + a.z ^ 2 + a.w ^ 2) * (b.x ^ 2 + b.y ^ 2 + b.z ^ 2 + b.w ^ 2) := by
  simp only [Vector4.dot]
  nlinarith [sq_nonneg (a.x * b.y - a.y * b.x), sq_nonneg (a.x * b.z - a.z * b.x),
    sq_nonneg (a.x * b.w - a.w * b.x), sq_nonneg (a.y * b.z - a.z * b.y),
    sq_nonneg (a.y * b.w - a.w * b.y), sq_nonneg (a.z * b.w - a.w * b.z)]

lemma Vector2.abs_dot2_le (a b : Vector2 ℝ) : |a.dot b| ≤ a.length * b.length := by
  have h1 : a.length * b.length =
      Real.sqrt ((a.x ^ 2 + a.y ^ 2) * (b.x ^ 2 + b.y ^ 2)) := by
    rw [Vector2.length, Vector2.length, ← Real.sqrt_mul (by positivity)]
  rw [h1, ← Real.sqrt_sq_eq_abs]
  exact Real.sqrt_le_sqrt (Vector2.dot2_sq_le a b)

lemma Vector3.abs_dot3_le (a b : Vector3 ℝ) : |a.dot b| ≤ a.length * b.length := by
  have h1 : a.length * b.length =
      Real.sqrt ((a.x ^ 2 + a.y ^ 2 + a.z ^ 2) * (b.x ^ 2 + b.y ^ 2 + b.z ^ 2)) := by
    rw [Vector3.length, Vector3.length, ← Real.sqrt_mul (by positivity)]
  rw [h1, ← Real.sqrt_sq_eq_abs]
  exact Real.sqrt_le_sqrt (Vector3.dot3_sq_le a b)

lemma Vector4.abs_dot4_le (a b : Vector4 ℝ) : |a.dot b| ≤ a.length * b.length := by
  have h1 : a.length * b.length =
      Real.sqrt ((a.x ^ 2 + a.y ^ 2 + a.z ^ 2 + a.w ^ 2) *
        (b.x ^ 2 + b.y ^ 2 + b.z ^ 2 + b.w ^ 2)) := by
    rw [Vector4.length, Vector4.length, ← Real.sqrt_mul (by positivity)]
  rw [h1, ← Real.sqrt_sq_eq_abs]
  exact Real.sqrt_le_sqrt (Vector4.dot4_sq_le a b)

lemma Vector2.angle2_of_ne (a b : Vector2 ℝ) (ha : a.length ≠ 0) (hb : b.length ≠ 0) :
    a.angle_between b = FReal.num (Real.arccos (a.dot b / (a.length * b.length))) := by
  have ha' : 0 < a.length := lt_of_le_of_ne (Vector2.length2_nonneg a) (Ne.symm ha)
  have hb' : 0 < b.length := lt_of_le_of_ne (Vector2.length2_nonneg b) (Ne.symm hb)
  have hprod : 0 < a.length * b.length := mul_pos ha' hb'
  have habs : |a.dot b / (a.length * b.length)| ≤ 1 := by
    rw [abs_div, abs_of_pos hprod]
    exact (div_le_one hprod).mpr (Vector2.abs_dot2_le a b)
  obtain ⟨hlo, hhi⟩ := abs_le.mp habs
  rw [Vector2.angle_between, fdiv, if_neg (ne_of_gt hprod), facos,
    if_neg (by push_neg; exact ⟨hlo, hhi⟩)]

lemma Vector3.angle3_of_ne (a b : Vector3 ℝ) (ha : a.length ≠ 0) (hb : b.length ≠ 0) :
    a.angle_between b = FReal.num (Real.arccos (a.dot b / (a.length * b.length))) := by
  have ha' : 0 < a.length := lt_of_le_of_ne (Vector3.length3_nonneg a) (Ne.symm ha)
  have hb' : 0 < b.length := lt_of_le_of_ne (Vector3.length3_nonneg b) (Ne.symm hb)
  have hprod : 0 < a.length * b.length := mul_pos ha' hb'
  have habs : |a.dot b / (a.length * b.length)| ≤ 1 := by
    rw [abs_div, abs_of_pos hprod]
    exact (div_le_one hprod).mpr (Vector3.abs_dot3_le a b)
  obtain ⟨hlo, hhi⟩ := abs_le.mp habs
  rw [Vector3.angle_between, fdiv, if_neg (ne_of_gt hprod), facos,
    if_neg (by push_neg; exact ⟨hlo, hhi⟩)]

lemma Vector4.angle4_of_ne (a b : Vector4 ℝ) (ha : a.length ≠ 0) (hb : b.length ≠ 0) :
    a.angle_between b = FReal.num (Real.arccos (a.dot b / (a.length * b.length))) := by
  have ha' : 0 < a.length := lt_of_le_of_ne (Vector4.length4_nonneg a) (Ne.symm ha)
  have hb' : 0 < b.length := lt_of_le_of_ne (Vector4.length4_nonneg b) (Ne.symm hb)
  have hprod : 0 < a.length * b.length := mul_pos ha' hb'
  have habs : |a.dot b / (a.length * b.length)| ≤ 1 := by
    rw [abs_div, abs_of_pos hprod]
    exact (div_le_one hprod).mpr (Vector4.abs_dot4_le a b)
  obtain ⟨hlo, hhi⟩ := abs_le.mp habs
  rw [Vector4.angle_between, fdiv, if_neg (ne_of_gt hprod), facos,
    if_neg (by push_neg; exact ⟨hlo, hhi⟩)]

lemma Vector2.angle2_nan_of_zero (a b : Vector2 ℝ) (h : a.length = 0 ∨ b.length = 0) :
    a.angle_between b = FReal.nan := by
  have hdot : a.dot b = 0 := by
    rcases h with h | h
    · obtain ⟨hx, hy⟩ := (Vector2.length2_eq_zero_iff a).mp h
      simp [Vector2.dot, hx, hy]
    · obtain ⟨hx, hy⟩ := (Vector2.length2_eq_zero_iff b).mp h
      simp [Vector2.dot, hx, hy]
  have hprod : a.length * b.length = 0 := by
    rcases h with h | h
    · rw [h, zero_mul]
    · rw [h, mul_zero]
  rw [Vector2.angle_between, hdot, hprod, fdiv_zero_zero, facos_nan]

lemma Vector3.angle3_nan_of_zero (a b : Vector3 ℝ) (h : a.length = 0 ∨ b.length = 0) :
    a.angle_between b = FReal.nan := by
  have hdot : a.dot b = 0 := by
    rcases h with h | h
    · obtain ⟨hx, hy, hz⟩ := (Vector3.length3_eq_zero_iff a).mp h
      simp [Vector3.dot, hx, hy, hz]
    · obtain ⟨hx, hy, hz⟩ := (Vector3.length3_eq_zero_iff b).mp h
      simp [Vector3.dot, hx, hy, hz]
  have hprod : a.length * b.length = 0 := by
    rcases h with h | h
    · rw [h, zero_mul]
    · rw [h, mul_zero]
  rw [Vector3.angle_between, hdot, hprod, fdiv_zero_zero, facos_nan]

lemma Vector4.angle4_nan_of_zero (a b : Vector4 ℝ) (h : a.length = 0 ∨ b.length = 0) :
    a.angle_between b = FReal.nan := by
  have hdot : a.dot b = 0 := by
    rcases h with h | h
    · obtain ⟨hx, hy, hz, hw⟩ := (Vector4.length4_eq_zero_iff a).mp h
      simp [Vector4.dot, hx, hy, hz, hw]
    · obtain ⟨hx, hy, hz, hw⟩ := (Vector4.length4_eq_zero_iff b).mp h
      simp [Vector4.dot, hx, hy, hz, hw]
  have hprod : a.length * b.length = 0 := by
    rcases h with h | h
    · rw [h, zero_mul]
    · rw [h, mul_zero]
  rw [Vector4.angle_between, hdot, hprod, fdiv_zero_zero, facos_nan]

lemma Vector2.normalize2_of_ne (v : Vector2 ℝ) (h : v.length ≠ 0) :
    v.normalize = Vector2.new (v.x / v.length) (v.y / v.length) := by
  simp [Vector2.normalize, Vector2.new, h]

lemma Vector3.normalize3_of_ne (v : Vector3 ℝ) (h : v.length ≠ 0) :
    v.normalize = Vector3.new (v.x / v.length) (v.y / v.length) (v.z / v.length) := by
  simp [Vector3.normalize, Vector3.new, h]

lemma Vector4.normalize4_of_ne (v : Vector4 ℝ) (h : v.length ≠ 0) :
    v.normalize =
      Vector4.new (v.x / v.length) (v.y / v.length) (v.z / v.length) (v.w / v.length) := by
  simp [Vector4.normalize, Vector4.new, h]

lemma Vector2.length_normalize2 (v : Vector2 ℝ) (h : v.length ≠ 0) :
    v.normalize.length = 1 := by
  rw [Vector2.normalize2_of_ne v h]
  have hs := Vector2.sq_length2 v
  have hx : (v.x / v.length) ^ 2 + (v.y / v.length) ^ 2 = 1 := by
    field_simp
    linarith
  rw [show (Vector2.new (v.x / v.length) (v.y / v.length)).length =
      Real.sqrt ((v.x / v.length) ^ 2 + (v.y / v.length) ^ 2) from rfl, hx, Real.sqrt_one]

lemma Vector3.length_normalize3 (v : Vector3 ℝ) (h : v.length ≠ 0) :
    v.normalize.length = 1 := by
  rw [Vector3.normalize3_of_ne v h]
  have hs := Vector3.sq_length3 v
  have hx : (v.x / v.length) ^ 2 + (v.y / v.length) ^ 2 + (v.z / v.length) ^ 2 = 1 := by
    field_simp
    linarith
  rw [show (Vector3.new (v.x / v.length) (v.y / v.length) (v.z / v.length)).length =
      Real.sqrt ((v.x / v.length) ^ 2 + (v.y / v.length) ^ 2 + (v.z / v.length) ^ 2) from rfl,
    hx, Real.sqrt_one]

lemma Vector4.length_normalize4 (v : Vector4 ℝ) (h : v.length ≠ 0) :
    v.normalize.length = 1 := by
  rw [Vector4.normalize4_of_ne v h]
  have hs := Vector4.sq_length4 v
  have hx : (v.x / v.length) ^ 2 + (v.y / v.length) ^ 2 + (v.z / v.length) ^ 2 +
      (v.w / v.length) ^ 2 = 1 := by
    field_simp
    linarith
  rw [show (Vector4.new (v.x / v.length) (v.y / v.length) (v.z / v.length)
        (v.w / v.length)).length =
      Real.sqrt ((v.x / v.length) ^ 2 + (v.y / v.length) ^ 2 + (v.z / v.length) ^ 2 +
        (v.w / v.length) ^ 2) from rfl, hx, Real.sqrt_one]

/-! ### Projection/rejection componentwise round-trip -/

lemma Vector2.proj_rej2_x (a b : Vector2 ℝ) :
    (a.project_onto b + a.reject_from b).x = a.x := by
  simp [Vector2.reject_from]

lemma Vector2.proj_rej2_y (a b : Vector2 ℝ) :
    (a.project_onto b + a.reject_from b).y = a.y := by
  simp [Vector2.reject_from]

lemma Vector3.proj_rej3_x (a b : Vector3 ℝ) :
    (a.project_onto b + a.reject_from b).x = a.x := by
  simp [Vector3.reject_from]

lemma Vector3.proj_rej3_y (a b : Vector3 ℝ) :
    (a.project_onto b + a.reject_from b).y = a.y := by
  simp [Vector3.reject_from]

lemma Vector3.proj_rej3_z (a b : Vector3 ℝ) :
    (a.project_onto b + a.reject_from b).z = a.z := by
  simp [Vector3.reject_from]

lemma Vector4.proj_rej4_x (a b : Vector4 ℝ) :
    (a.project_onto b + a.reject_from b).x = a.x := by
  simp [Vector4.reject_from]

lemma Vector4.proj_rej4_y (a b : Vector4 ℝ) :
    (a.project_onto b + a.reject_from b).y = a.y := by
  simp [Vector4.reject_from]

lemma Vector4.proj_rej4_z (a b : Vector4 ℝ) :
    (a.project_onto b + a.reject_from b).z = a.z := by
  simp [Vector4.reject_from]

lemma Vector4.proj_rej4_w (a b : Vector4 ℝ) :
    (a.project_onto b + a.reject_from b).w = a.w := by
  simp [Vector4.reject_from]

/-! ### Claim theorems -/

/-- C1: for every vector of any of the three types whose `length()` is `0.0`,
`normalize()` returns the vector unchanged (the division branch is never
taken). -/
theorem C1_normalize_zero_length :
    (∀ v : Vector2 ℝ, v.length = 0 → v.normalize = v) ∧
    (∀ v : Vector3 ℝ, v.length = 0 → v.normalize = v) ∧
    (∀ v : Vector4 ℝ, v.length = 0 → v.normalize = v) := by
  refine ⟨fun v h => ?_, fun v h => ?_, fun v h => ?_⟩ <;>
    simp [Vector2.normalize, Vector3.normalize, Vector4.normalize, h]

/-- Witness for C1: the zero vectors themselves. -/
theorem C1_normalize_zero_length_witness :
    (Vector2.new (0 : ℝ) 0).normalize = Vector2.new (0 : ℝ) 0 ∧
    (Vector3.new (0 : ℝ) 0 0).normalize = Vector3.new (0 : ℝ) 0 0 ∧
    (Vector4.new (0 : ℝ) 0 0 0).normalize = Vector4.new (0 : ℝ) 0 0 0 :=
  ⟨C1_normalize_zero_length.1 _ (by simp [Vector2.length, Vector2.new]),
   C1_normalize_zero_length.2.1 _ (by simp [Vector3.length, Vector3.new]),
   C1_normalize_zero_length.2.2 _ (by simp [Vector4.length, Vector4.new])⟩

/-- C3: `Vector4::cross` computes the 3D cross product of the x,y,z parts,
ignores both inputs' `w` components entirely, fixes the result's `w` to `0.0`,
and on `(1,2,3,4) × (5,6,7,8)` yields `(-4, 8, -4, 0)`. -/
theorem C3_cross4_spec :
    (∀ a b : Vector4 ℝ,
      a.cross b =
        Vector4.new (a.y * b.z - a.z * b.y) (a.z * b.x - a.x * b.z)
          (a.x * b.y - a.y * b.x) 0) ∧
    (∀ (a b : Vector4 ℝ) (w w' : ℝ),
      (Vector4.new a.x a.y a.z w).cross (Vector4.new b.x b.y b.z w') = a.cross b) ∧
    (Vector4.new (1 : ℝ) 2 3 4).cross (Vector4.new 5 6 7 8) = Vector4.new (-4) 8 (-4) 0 := by
  refine ⟨fun a b => rfl, fun a b w w' => rfl, ?_⟩
  norm_num [Vector4.cross, Vector4.new]

/-- C4: `Vector3::cross` is the true 3D cross product
`(y1*z2 - z1*y2, z1*x2 - x1*z2, x1*y2 - y1*x2)`, and on `(3,4,5) × (6,7,8)`
the `x` component is `-3.0`. -/
theorem C4_cross3_spec :
    (∀ a b : Vector3 ℝ,
      a.cross b =
        Vector3.new (a.y * b.z - a.z * b.y) (a.z * b.x - a.x * b.z)
          (a.x * b.y - a.y * b.x)) ∧
    ((Vector3.new (3 : ℝ) 4 5).cross (Vector3.new 6 7 8)).x = -3 := by
  refine ⟨fun a b => rfl, ?_⟩
  norm_num [Vector3.cross, Vector3.new]

/-- C5: `lerp` computes `self + (other - self) * t` per component with `t`
unclamped, and `t = 0` yields `self` while `t = 1` yields `other`, for all
three vector types. -/
theorem C5_lerp_spec :
    (∀ (a b : Vector2 ℝ) (t : ℝ),
      a.lerp b t = Vector2.new (a.x + (b.x - a.x) * t) (a.y + (b.y - a.y) * t) ∧
      a.lerp b 0 = a ∧ a.lerp b 1 = b) ∧
    (∀ (a b : Vector3 ℝ) (t : ℝ),
      a.lerp b t =
        Vector3.new (a.x + (b.x - a.x) * t) (a.y + (b.y - a.y) * t)
          (a.z + (b.z - a.z) * t) ∧
      a.lerp b 0 = a ∧ a.lerp b 1 = b) ∧
    (∀ (a b : Vector4 ℝ) (t : ℝ),
      a.lerp b t =
        Vector4.new (a.x + (b.x - a.x) * t) (a.y + (b.y - a.y) * t)
          (a.z + (b.z - a.z) * t) (a.w + (b.w - a.w) * t) ∧
      a.lerp b 0 = a ∧ a.lerp b 1 = b) := by
  refine ⟨fun a b t => ⟨rfl, ?_, ?_⟩, fun a b t => ⟨rfl, ?_, ?_⟩, fun a b t => ⟨rfl, ?_, ?_⟩⟩ <;>
    [skip; obtain ⟨p, q⟩ := b; skip; obtain ⟨p, q, r⟩ := b; skip; obtain ⟨p, q, r, s⟩ := b] <;>
    simp [Vector2.lerp, Vector3.lerp, Vector4.lerp]

/-- C2: for each vector type, `swizzle` with every index in `[0, N-1]` returns
`some` of the vector gathering the input components at those indices in order
(repetition allowed); with any index out of range it panics (embedded as
`none`) instead of returning a value. -/
theorem C2_swizzle_spec :
    (∀ (T : Type) (v : Vector2 T) (i j : Nat) (hi : i < 2) (hj : j < 2),
      v.swizzle i j =
        some ⟨[v.x, v.y].get ⟨i, hi⟩, [v.x, v.y].get ⟨j, hj⟩⟩) ∧
    (∀ (T : Type) (v : Vector2 T) (i j : Nat),
      ¬(i < 2 ∧ j < 2) → v.swizzle i j = none) ∧
    (∀ (T : Type) (v : Vector3 T) (i j k : Nat) (hi : i < 3) (hj : j < 3) (hk : k < 3),
      v.swizzle i j k =
        some ⟨[v.x, v.y, v.z].get ⟨i, hi⟩, [v.x, v.y, v.z].get ⟨j, hj⟩,
          [v.x, v.y, v.z].get ⟨k, hk⟩⟩) ∧
    (∀ (T : Type) (v : Vector3 T) (i j k : Nat),
      ¬(i < 3 ∧ j < 3 ∧ k < 3) → v.swizzle i j k = none) ∧
    (∀ (T : Type) (v : Vector4 T) (i j k l : Nat)
        (hi : i < 4) (hj : j < 4) (hk : k < 4) (hl : l < 4),
      v.swizzle i j k l =
        some ⟨[v.x, v.y, v.z, v.w].get ⟨i, hi⟩, [v.x, v.y, v.z, v.w].get ⟨j, hj⟩,
          [v.x, v.y, v.z, v.w].get ⟨k, hk⟩, [v.x, v.y, v.z, v.w].get ⟨l, hl⟩⟩) ∧
    (∀ (T : Type) (v : Vector4 T) (i j k l : Nat),
      ¬(i < 4 ∧ j < 4 ∧ k < 4 ∧ l < 4) → v.swizzle i j k l = none) := by
  refine ⟨?_, ?_, ?_, ?_, ?_, ?_⟩
  · intro T v i j hi hj
    interval_cases i <;> interval_cases j <;> rfl
  · intro T v i j h
    simp only [Vector2.swizzle]
    rcases h1 : ([v.x, v.y] : List T).get? i with _ | a <;>
      rcases h2 : ([v.x, v.y] : List T).get? j with _ | b
    · rfl
    · rfl
    · rfl
    · have hi : i < 2 := by simpa using (List.get?_eq_some.mp h1).1
      have hj : j < 2 := by simpa using (List.get?_eq_some.mp h2).1
      exact absurd ⟨hi, hj⟩ h
  · intro T v i j k hi hj hk
    interval_cases i <;> interval_cases j <;> interval_cases k <;> rfl
  · intro T v i j k h
    simp only [Vector3.swizzle]
    rcases h1 : ([v.x, v.y, v.z] : List T).get? i with _ | a <;>
      rcases h2 : ([v.x, v.y, v.z] : List T).get? j with _ | b <;>
      rcases h3 : ([v.x, v.y, v.z] : List T).get? k with _ | c
    case some.some.some =>
      have hi : i < 3 := by simpa using (List.get?_eq_some.mp h1).1
      have hj : j < 3 := by simpa using (List.get?_eq_some.mp h2).1
      have hk : k < 3 := by simpa using (List.get?_eq_some.mp h3).1
      exact absurd ⟨hi, hj, hk⟩ h
    all_goals rfl
  · intro T v i j k l hi hj hk hl
    interval_cases i <;> interval_cases j <;> interval_cases k <;> interval_cases l <;> rfl
  · intro T v i j k l h
    simp only [Vector4.swizzle]
    rcases h1 : ([v.x, v.y, v.z, v.w] : List T).get? i with _ | a <;>
      rcases h2 : ([v.x, v.y, v.z, v.w] : List T).get? j with _ | b <;>
      rcases h3 : ([v.x, v.y, v.z, v.w] : List T).get? k with _ | c <;>
      rcases h4 : ([v.x, v.y, v.z, v.w] : List T).get? l with _ | d
    case some.some.some.some =>
      have hi : i < 4 := by simpa using (List.get?_eq_some.mp h1).1
      have hj : j < 4 := by simpa using (List.get?_eq_some.mp h2).1
      have hk : k < 4 := by simpa using (List.get?_eq_some.mp h3).1
      have hl : l < 4 := by simpa using (List.get?_eq_some.mp h4).1
      exact absurd ⟨hi, hj, hk, hl⟩ h
    all_goals rfl

/-- Witness for C2: `(1,2).swizzle(1,0) = (2,1)` (the spec's own example) and
an out-of-range index for each type. -/
theorem C2_swizzle_spec_witness :
    (Vector2.new (1 : ℚ) 2).swizzle 1 0 = some (Vector2.new (2 : ℚ) 1) ∧
    (Vector2.new (1 : ℚ) 2).swizzle 2 0 = none ∧
    (Vector3.new (1 : ℚ) 2 3).swizzle 1 2 0 = some (Vector3.new (2 : ℚ) 3 1) ∧
    (Vector3.new (1 : ℚ) 2 3).swizzle 0 3 0 = none ∧
    (Vector4.new (1 : ℚ) 2 3 4).swizzle 1 2 3 0 = some (Vector4.new (2 : ℚ) 3 4 1) ∧
    (Vector4.new (1 : ℚ) 2 3 4).swizzle 0 1 2 4 = none := by
  refine ⟨?_, ?_, ?_, ?_, ?_, ?_⟩
  · exact C2_swizzle_spec.1 ℚ (Vector2.new 1 2) 1 0 (by norm_num) (by norm_num)
  · exact C2_swizzle_spec.2.1 ℚ (Vector2.new 1 2) 2 0 (by norm_num)
  · exact C2_swizzle_spec.2.2.1 ℚ (Vector3.new 1 2 3) 1 2 0 (by norm_num) (by norm_num)
      (by norm_num)
  · exact C2_swizzle_spec.2.2.2.1 ℚ (Vector3.new 1 2 3) 0 3 0 (by norm_num)
  · exact C2_swizzle_spec.2.2.2.2.1 ℚ (Vector4.new 1 2 3 4) 1 2 3 0 (by norm_num)
      (by norm_num) (by norm_num) (by norm_num)
  · exact C2_swizzle_spec.2.2.2.2.2 ℚ (Vector4.new 1 2 3 4) 0 1 2 4 (by norm_num)

/-- C6: for every `a` and nonzero `b` of the same type,
`a.project_onto(b) + a.reject_from(b)` equals `a` within `1e-6` on every
component. -/
theorem C6_project_reject_roundtrip :
    (∀ a b : Vector2 ℝ, b ≠ Vector2.new 0 0 →
      |(a.project_onto b + a.reject_from b).x - a.x| < 1e-6 ∧
      |(a.project_onto b + a.reject_from b).y - a.y| < 1e-6) ∧
    (∀ a b : Vector3 ℝ, b ≠ Vector3.new 0 0 0 →
      |(a.project_onto b + a.reject_from b).x - a.x| < 1e-6 ∧
      |(a.project_onto b + a.reject_from b).y - a.y| < 1e-6 ∧
      |(a.project_onto b + a.reject_from b).z - a.z| < 1e-6) ∧
    (∀ a b : Vector4 ℝ, b ≠ Vector4.new 0 0 0 0 →
      |(a.project_onto b + a.reject_from b).x - a.x| < 1e-6 ∧
      |(a.project_onto b + a.reject_from b).y - a.y| < 1e-6 ∧
      |(a.project_onto b + a.reject_from b).z - a.z| < 1e-6 ∧
      |(a.project_onto b + a.reject_from b).w - a.w| < 1e-6) := by
  refine ⟨fun a b _ => ⟨?_, ?_⟩, fun a b _ => ⟨?_, ?_, ?_⟩, fun a b _ => ⟨?_, ?_, ?_, ?_⟩⟩ <;>
    simp only [Vector2.proj_rej2_x, Vector2.proj_rej2_y, Vector3.proj_rej3_x, Vector3.proj_rej3_y,
      Vector3.proj_rej3_z, Vector4.proj_rej4_x, Vector4.proj_rej4_y, Vector4.proj_rej4_z,
      Vector4.proj_rej4_w, sub_self, abs_zero] <;>
    norm_num

/-- Witness for C6: `a = (1,2,...)` against the nonzero `b = (1,0,...)` for
each type. -/
theorem C6_project_reject_roundtrip_witness :
    (|((Vector2.new (1 : ℝ) 2).project_onto (Vector2.new 1 0) +
        (Vector2.new (1 : ℝ) 2).reject_from (Vector2.new 1 0)).x -
        (Vector2.new (1 : ℝ) 2).x| < 1e-6 ∧
      |((Vector2.new (1 : ℝ) 2).project_onto (Vector2.new 1 0) +
        (Vector2.new (1 : ℝ) 2).reject_from (Vector2.new 1 0)).y -
        (Vector2.new (1 : ℝ) 2).y| < 1e-6) ∧
    (|((Vector3.new (1 : ℝ) 2 3).project_onto (Vector3.new 1 0 0) +
        (Vector3.new (1 : ℝ) 2 3).reject_from (Vector3.new 1 0 0)).x -
        (Vector3.new (1 : ℝ) 2 3).x| < 1e-6 ∧
      |((Vector3.new (1 : ℝ) 2 3).project_onto (Vector3.new 1 0 0) +
        (Vector3.new (1 : ℝ) 2 3).reject_from (Vector3.new 1 0 0)).y -
        (Vector3.new (1 : ℝ) 2 3).y| < 1e-6 ∧
      |((Vector3.new (1 : ℝ) 2 3).project_onto (Vector3.new 1 0 0) +
        (Vector3.new (1 : ℝ) 2 3).reject_from (Vector3.new 1 0 0)).z -
        (Vector3.new (1 : ℝ) 2 3).z| < 1e-6) ∧
    (|((Vector4.new (1 : ℝ) 2 3 4).project_onto (Vector4.new 1 0 0 0) +
        (Vector4.new (1 : ℝ) 2 3 4).reject_from (Vector4.new 1 0 0 0)).x -
        (Vector4.new (1 : ℝ) 2 3 4).x| < 1e-6 ∧
      |((Vector4.new (1 : ℝ) 2 3 4).project_onto (Vector4.new 1 0 0 0) +
        (Vector4.new (1 : ℝ) 2 3 4).reject_from (Vector4.new 1 0 0 0)).y -
        (Vector4.new (1 : ℝ) 2 3 4).y| < 1e-6 ∧
      |((Vector4.new (1 : ℝ) 2 3 4).project_onto (Vector4.new 1 0 0 0) +
        (Vector4.new (1 : ℝ) 2 3 4).reject_from (Vector4.new 1 0 0 0)).z -
        (Vector4.new (1 : ℝ) 2 3 4).z| < 1e-6 ∧
      |((Vector4.new (1 : ℝ) 2 3 4).project_onto (Vector4.new 1 0 0 0) +
        (Vector4.new (1 : ℝ) 2 3 4).reject_from (Vector4.new 1 0 0 0)).w -
        (Vector4.new (1 : ℝ) 2 3 4).w| < 1e-6) :=
  ⟨C6_project_reject_roundtrip.1 _ _ (by simp [Vector2.new]),
   C6_project_reject_roundtrip.2.1 _ _ (by simp [Vector3.new]),
   C6_project_reject_roundtrip.2.2 _ _ (by simp [Vector4.new])⟩

/-- C7: for every pair of same-type vectors, `angle_between` returns
`acos(dot / (length(self) * length(other)))` in radians whenever both lengths
are nonzero, and returns NaN (no guard, just IEEE division and arc-cosine)
whenever either vector has zero length. -/
theorem C7_angle_between_spec :
    (∀ a b : Vector2 ℝ, a.length ≠ 0 → b.length ≠ 0 →
      a.angle_between b = FReal.num (Real.arccos (a.dot b / (a.length * b.length)))) ∧
    (∀ a b : Vector2 ℝ, a.length = 0 ∨ b.length = 0 → a.angle_between b = FReal.nan) ∧
    (∀ a b : Vector3 ℝ, a.length ≠ 0 → b.length ≠ 0 →
      a.angle_between b = FReal.num (Real.arccos (a.dot b / (a.length * b.length)))) ∧
    (∀ a b : Vector3 ℝ, a.length = 0 ∨ b.length = 0 → a.angle_between b = FReal.nan) ∧
    (∀ a b : Vector4 ℝ, a.length ≠ 0 → b.length ≠ 0 →
      a.angle_between b = FReal.num (Real.arccos (a.dot b / (a.length * b.length)))) ∧
    (∀ a b : Vector4 ℝ, a.length = 0 ∨ b.length = 0 → a.angle_between b = FReal.nan) :=
  ⟨Vector2.angle2_of_ne, Vector2.angle2_nan_of_zero, Vector3.angle3_of_ne,
   Vector3.angle3_nan_of_zero, Vector4.angle4_of_ne, Vector4.angle4_nan_of_zero⟩

/-- Witness for C7: unit axis vectors for the formula case, a zero vector for
the NaN case, in each dimension. -/
theorem C7_angle_between_spec_witness :
    ((Vector2.new (1 : ℝ) 0).angle_between (Vector2.new 0 1) =
      FReal.num (Real.arccos ((Vector2.new (1 : ℝ) 0).dot (Vector2.new 0 1) /
        ((Vector2.new (1 : ℝ) 0).length * (Vector2.new (0 : ℝ) 1).length)))) ∧
    ((Vector2.new (0 : ℝ) 0).angle_between (Vector2.new 0 1) = FReal.nan) ∧
    ((Vector3.new (1 : ℝ) 0 0).angle_between (Vector3.new 0 1 0) =
      FReal.num (Real.arccos ((Vector3.new (1 : ℝ) 0 0).dot (Vector3.new 0 1 0) /
        ((Vector3.new (1 : ℝ) 0 0).length * (Vector3.new (0 : ℝ) 1 0).length)))) ∧
    ((Vector3.new (0 : ℝ) 0 0).angle_between (Vector3.new 0 1 0) = FReal.nan) ∧
    ((Vector4.new (1 : ℝ) 0 0 0).angle_between (Vector4.new 0 1 0 0) =
      FReal.num (Real.arccos ((Vector4.new (1 : ℝ) 0 0 0).dot (Vector4.new 0 1 0 0) /
        ((Vector4.new (1 : ℝ) 0 0 0).length * (Vector4.new (0 : ℝ) 1 0 0).length)))) ∧
    ((Vector4.new (0 : ℝ) 0 0 0).angle_between (Vector4.new 0 1 0 0) = FReal.nan) := by
  refine ⟨?_, ?_, ?_, ?_, ?_, ?_⟩
  · exact C7_angle_between_spec.1 _ _
      (by simp [Vector2.length, Vector2.new]) (by simp [Vector2.length, Vector2.new])
  · exact C7_angle_between_spec.2.1 _ _ (Or.inl (by simp [Vector2.length, Vector2.new]))
  · exact C7_angle_between_spec.2.2.1 _ _
      (by simp [Vector3.length, Vector3.new]) (by simp [Vector3.length, Vector3.new])
  · exact C7_angle_between_spec.2.2.2.1 _ _ (Or.inl (by simp [Vector3.length, Vector3.new]))
  · exact C7_angle_between_spec.2.2.2.2.1 _ _
      (by simp [Vector4.length, Vector4.new]) (by simp [Vector4.length, Vector4.new])
  · exact C7_angle_between_spec.2.2.2.2.2 _ _ (Or.inl (by simp [Vector4.length, Vector4.new]))

/-- C8: for every nonzero vector of any of the three types, the normalised
vector has length within `1e-6` of `1.0`, and each of its components is the
corresponding input component divided by the input's length. -/
theorem C8_normalize_unit_length :
    (∀ v : Vector2 ℝ, v ≠ Vector2.new 0 0 →
      |v.normalize.length - 1| < 1e-6 ∧
      v.normalize = Vector2.new (v.x / v.length) (v.y / v.length)) ∧
    (∀ v : Vector3 ℝ, v ≠ Vector3.new 0 0 0 →
      |v.normalize.length - 1| < 1e-6 ∧
      v.normalize = Vector3.new (v.x / v.length) (v.y / v.length) (v.z / v.length)) ∧
    (∀ v : Vector4 ℝ, v ≠ Vector4.new 0 0 0 0 →
      |v.normalize.length - 1| < 1e-6 ∧
      v.normalize =
        Vector4.new (v.x / v.length) (v.y / v.length) (v.z / v.length) (v.w / v.length)) := by
  refine ⟨fun v hv => ?_, fun v hv => ?_, fun v hv => ?_⟩
  · have h0 : v.length ≠ 0 := by
      intro hz
      obtain ⟨hx, hy⟩ := (Vector2.length2_eq_zero_iff v).mp hz
      exact hv (by cases v; simp_all [Vector2.new])
    exact ⟨by rw [Vector2.length_normalize2 v h0, sub_self, abs_zero]; norm_num,
      Vector2.normalize2_of_ne v h0⟩
  · have h0 : v.length ≠ 0 := by
      intro hz
      obtain ⟨hx, hy, hz'⟩ := (Vector3.length3_eq_zero_iff v).mp hz
      exact hv (by cases v; simp_all [Vector3.new])
    exact ⟨by rw [Vector3.length_normalize3 v h0, sub_self, abs_zero]; norm_num,
      Vector3.normalize3_of_ne v h0⟩
  · have h0 : v.length ≠ 0 := by
      intro hz
      obtain ⟨hx, hy, hz', hw⟩ := (Vector4.length4_eq_zero_iff v).mp hz
      exact hv (by cases v; simp_all [Vector4.new])
    exact ⟨by rw [Vector4.length_normalize4 v h0, sub_self, abs_zero]; norm_num,
      Vector4.normalize4_of_ne v h0⟩

/-- Witness for C8: the nonzero vectors `(3,4)`, `(3,4,5)` and `(1,2,3,4)`. -/
theorem C8_normalize_unit_length_witness :
    (|(Vector2.new (3 : ℝ) 4).normalize.length - 1| < 1e-6 ∧
      (Vector2.new (3 : ℝ) 4).normalize =
        Vector2.new ((Vector2.new (3 : ℝ) 4).x / (Vector2.new (3 : ℝ) 4).length)
          ((Vector2.new (3 : ℝ) 4).y / (Vector2.new (3 : ℝ) 4).length)) ∧
    (|(Vector3.new (3 : ℝ) 4 5).normalize.length - 1| < 1e-6 ∧
      (Vector3.new (3 : ℝ) 4 5).normalize =
        Vector3.new ((Vector3.new (3 : ℝ) 4 5).x / (Vector3.new (3 : ℝ) 4 5).length)
          ((Vector3.new (3 : ℝ) 4 5).y / (Vector3.new (3 : ℝ) 4 5).length)
          ((Vector3.new (3 : ℝ) 4 5).z / (Vector3.new (3 : ℝ) 4 5).length)) ∧
    (|(Vector4.new (1 : ℝ) 2 3 4).normalize.length - 1| < 1e-6 ∧
      (Vector4.new (1 : ℝ) 2 3 4).normalize =
        Vector4.new ((Vector4.new (1 : ℝ) 2 3 4).x / (Vector4.new (1 : ℝ) 2 3 4).length)
          ((Vector4.new (1 : ℝ) 2 3 4).y / (Vector4.new (1 : ℝ) 2 3 4).length)
          ((Vector4.new (1 : ℝ) 2 3 4).z / (Vector4.new (1 : ℝ) 2 3 4).length)
          ((Vector4.new (1 : ℝ) 2 3 4).w / (Vector4.new (1 : ℝ) 2 3 4).length)) :=
  ⟨C8_normalize_unit_length.1 _ (by simp [Vector2.new]),
   C8_normalize_unit_length.2.1 _ (by simp [Vector3.new]),
   C8_normalize_unit_length.2.2 _ (by simp [Vector4.new])⟩

/-- C9: the Vector3 cross product is orthogonal to both operands:
`|cross(a,b) ⬝ a|` and `|cross(a,b) ⬝ b|` are below `1e-6` (in fact exactly
zero in real arithmetic). -/
theorem C9_cross_orthogonal :
    ∀ a b : Vector3 ℝ,
      |(a.cross b).dot a| < 1e-6 ∧ |(a.cross b).dot b| < 1e-6 := by
  intro a b
  have h1 : (a.cross b).dot a = 0 := by
    simp only [Vector3.cross, Vector3.dot]
    ring
  have h2 : (a.cross b).dot b = 0 := by
    simp only [Vector3.cross, Vector3.dot]
    ring
  rw [h1, h2, abs_zero]
  norm_num

/-- C10: for every vector of any of the three types, `length()` equals the
square root of `dot(self, self)`, and that self-dot-product is nonnegative. -/
theorem C10_length_eq_sqrt_self_dot :
    (∀ v : Vector2 ℝ, v.length = Real.sqrt (v.dot v) ∧ 0 ≤ v.dot v) ∧
    (∀ v : Vector3 ℝ, v.length = Real.sqrt (v.dot v) ∧ 0 ≤ v.dot v) ∧
    (∀ v : Vector4 ℝ, v.length = Real.sqrt (v.dot v) ∧ 0 ≤ v.dot v) := by
  refine ⟨fun v => ⟨?_, ?_⟩, fun v => ⟨?_, ?_⟩, fun v => ⟨?_, ?_⟩⟩
  · unfold Vector2.length
    congr 1
    simp only [Vector2.dot]
    ring
  · simp only [Vector2.dot]
    nlinarith [sq_nonneg v.x, sq_nonneg v.y]
  · unfold Vector3.length
    congr 1
    simp only [Vector3.dot]
    ring
  · simp only [Vector3.dot]
    nlinarith [sq_nonneg v.x, sq_nonneg v.y, sq_nonneg v.z]
  · unfold Vector4.length
    congr 1
    simp only [Vector4.dot]
    ring
  · simp only [Vector4.dot]
    nlinarith [sq_nonneg v.x, sq_nonneg v.y, sq_nonneg v.z, sq_nonneg v.w]

end Vexel
